import Mathlib

/-!
Shallow embedding of the ESP-Sync protocol handler (src/ESPSync.cpp /
src/ESPSync.h) and verification of the frozen claims about it.

Machine integers are modelled as `Nat` with explicit `% 2^w` where the C
code truncates; byte streams, the small message buffer and file contents
are `List Nat`; the SPIFFS storage collaborator is a flat association
list of (name bytes, content bytes).  Variables the C code reads while
uninitialized (the locals of the `uint32_t` adler32 overload, the `csum`
local of `PROCESS_FileRX` and `PROCESS_Listing`) are modelled as explicit
"junk" parameters, universally quantified in the theorems that touch them.
-/

/- ------------------------------------------------------------------ -/
/- Message header and protocol constants (ESPSync.cpp lines 40-107)   -/
/- ------------------------------------------------------------------ -/

def STX : ℕ := 0x02

def CMN_MAX : ℕ := 31

def ACK : ℕ := 0x06

def NAK : ℕ := 0x15

def NAK_TIMEOUT : ℕ := 0x21

def NAK_CHKSUM : ℕ := 0x22

def NAK_FORMAT : ℕ := 0x23

def NAK_FSERR : ℕ := 0x24

def NAK_FNOTF : ℕ := 0x25

def NAK_FNAMERR : ℕ := 0x26

def NAK_FSIZERR : ℕ := 0x27

def NAK_FEXISTS : ℕ := 0x28

def CMD_SET_TIME : ℕ := 0x60

def CMD_FORMAT : ℕ := 0x61

def CMD_LIST : ℕ := 0x62

def CMD_REMOVE : ℕ := 0x63

def CMD_RENAME : ℕ := 0x64

def CMD_FILE : ℕ := 0x65

def RPL_TIME_SET : ℕ := 0x70

def RPL_FORMATED : ℕ := 0x71

def RPL_LISTING : ℕ := 0x72

def RPL_REMOVED : ℕ := 0x73

def RPL_RENAMED : ℕ := 0x74

def RPL_RECEIVED : ℕ := 0x75

def RXSTATE_WAIT_STX : ℕ := 0x00

def RXSTATE_WAIT_CMN : ℕ := 0x01

def RXSTATE_WAIT_FUN : ℕ := 0x02

def RXSTATE_WAIT_SIZ_HI : ℕ := 0x03

def RXSTATE_WAIT_SIZ_MD : ℕ := 0x04

def RXSTATE_WAIT_SIZ_LO : ℕ := 0x05

def RXSTATE_WAIT_CHK_HI : ℕ := 0x06

def RXSTATE_WAIT_CHK_LO : ℕ := 0x07

def RXSTATE_WAIT_DATA : ℕ := 0x08

def RXSTATE_WAIT_CHK2_HI : ℕ := 0x09

def RXSTATE_WAIT_CHK2_LO : ℕ := 0x0A

def CSUM_SKIP : ℕ := 0x00

def CSUM_FLETCHER16 : ℕ := 0x01

def CSUM_ADLER32 : ℕ := 0x02

def TEMP_BUFFER_SIZE : ℕ := 70

/- ------------------------------------------------------------------ -/
/- Checksum routines (ESPSync.cpp lines 145-164)                      -/
/- ------------------------------------------------------------------ -/

/-- `fletcher16` (lines 145-149).  `csum` is the `uint16_t` accumulator
passed by pointer, `byte` the `uint8_t` input; the result is the value
stored back through the pointer.  The source stores
`(sum2 << 8) || sum1` — the C logical-or — so the stored value is the
`int` 1 whenever either operand is nonzero, 0 otherwise. -/
def fletcher16 (csum byte : ℕ) : ℕ :=
  let sum1 := (csum % 65536 + byte % 256) % 256
  let sum2 := (csum % 65536 / 256 + sum1) % 256
  if sum2 * 256 ≠ 0 ∨ sum1 ≠ 0 then 1 else 0

/-- The spec's 16-bit dual-lane accumulator, stated from the spec words:
state `(sum1 : u8, sum2 : u8)` packed as `(sum2 << 8) | sum1`; per byte
`sum1 = (sum1 + byte) mod 256; sum2 = (sum2 + sum1) mod 256`; emitted
checksum `(sum2 << 8) | sum1`.  Used only to compare against the code's
`fletcher16`. -/
def fletcher16Spec (csum byte : ℕ) : ℕ :=
  let sum1 := (csum % 256 + byte % 256) % 256
  let sum2 := (csum / 256 % 256 + sum1) % 256
  sum2 * 256 + sum1

/-- The two-pointer `adler32` overload (lines 151-157): one step of the
Adler fold on explicit `(hi, lo)` `uint16_t` state. -/
def adler32 (hi lo byte : ℕ) : ℕ × ℕ :=
  let lo2 := (lo % 65536 + byte % 256) % 65521
  let hi2 := (hi % 65536 + lo2) % 65521
  (hi2, lo2)

/-- The `uint32_t` `adler32` overload (lines 159-164).  The source
declares locals `uint16_t csum_lo; uint16_t csum_hi;` and passes their
addresses to the two-pointer overload WITHOUT initializing them from
`*csum`, then stores `(csum_hi << 16) | csum_lo` back.  `junkHi`/`junkLo`
model the indeterminate initial values of those locals; the accumulated
`csum` argument is never read. -/
def adler32u32 (junkHi junkLo : ℕ) (csum byte : ℕ) : ℕ :=
  let s := adler32 junkHi junkLo byte
  (s.1 <<< 16) ||| s.2

/-- The spec's 32-bit accumulator, stated from the spec words: one step of
the Adler-style fold over modulus 65521 on `(hi, lo)` state. -/
def adler32SpecStep (s : ℕ × ℕ) (byte : ℕ) : ℕ × ℕ :=
  let lo := (s.2 + byte) % 65521
  let hi := (s.1 + lo) % 65521
  (hi, lo)

/-- The spec's emitted 32-bit checksum over a byte sequence: fold from
`(lo, hi) = (1, 0)`, emit `(hi << 16) | lo`. -/
def adler32SpecEmit (bytes : List ℕ) : ℕ :=
  let s := bytes.foldl adler32SpecStep (0, 1)
  (s.1 <<< 16) ||| s.2

/- ------------------------------------------------------------------ -/
/- Claim C2 and C3 theorems                                           -/
/- ------------------------------------------------------------------ -/

/-- C2: the claim says the 16-bit dual-lane routine emits
`(sum2 << 8) | sum1` with the lanes carried through the accumulator.
The code instead stores the C logical-or `(sum2 << 8) || sum1`, so every
emitted value is 0 or 1: on `csum = 0, byte = 1` the spec fold yields
0x0101 = 257 but the code yields 1. -/
theorem fletcher16_collapses_to_bit :
    (∀ c b : ℕ, fletcher16 c b ≤ 1) ∧
    fletcher16 0 1 = 1 ∧ fletcher16Spec 0 1 = 257 ∧
    fletcher16 0 1 ≠ fletcher16Spec 0 1 := by
  refine ⟨fun c b => ?_, by decide, by decide, by decide⟩
  dsimp only [fletcher16]
  split <;> omega

/-- C3: the claim says the 32-bit checksum is the Adler fold from
`(lo, hi) = (1, 0)` with the state correctly persisted across byte calls.
The code's `uint32_t` overload never reads its accumulator argument
(`adler32u32 jh jl c b` is independent of `c`), each call restarts from
the uninitialized locals, and the threaded two-byte fold over `[1, 2]`
(with zeroed junk) yields 0x00020002 = 131074 where the spec fold yields
0x00060004 = 393220. -/
theorem adler32u32_state_not_threaded :
    (∀ jh jl c c' b : ℕ, adler32u32 jh jl c b = adler32u32 jh jl c' b) ∧
    adler32u32 0 0 (adler32u32 0 0 0 1) 2 = 131074 ∧
    adler32SpecEmit [1, 2] = 393220 ∧
    adler32u32 0 0 (adler32u32 0 0 0 1) 2 ≠ adler32SpecEmit [1, 2] := by
  refine ⟨fun jh jl c c' b => rfl, by decide, by decide, by decide⟩

/- ------------------------------------------------------------------ -/
/- Transmit framer (ESPSync.cpp lines 166-231)                        -/
/- ------------------------------------------------------------------ -/

/-- `TX_CMN(X)`: transmit-direction tag encoding, `X + 0x40`, truncated
to a byte by `write`. -/
def TX_CMN (x : ℕ) : ℕ := (x + 0x40) % 256

/-- `RX_CMN(X)`: receive-direction tag decoding, `X - 0x20` on the
`uint8_t` `input` variable (wraps modulo 256). -/
def RX_CMN (x : ℕ) : ℕ := (x % 256 + 256 - 0x20) % 256

/-- `ESPSync::TX_Header` (lines 184-195): emits STX, the transmit tag,
the function byte and the three size-field bytes, folding each through
`fletcher16` from a zeroed accumulator, then the two checksum bytes. -/
def TX_Header (cmn func size_opt : ℕ) : List ℕ :=
  let b1 := STX
  let c1 := fletcher16 0 b1
  let b2 := TX_CMN cmn
  let c2 := fletcher16 c1 b2
  let b3 := func % 256
  let c3 := fletcher16 c2 b3
  let b4 := size_opt / 2 ^ 16 % 256
  let c4 := fletcher16 c3 b4
  let b5 := size_opt / 2 ^ 8 % 256
  let c5 := fletcher16 c4 b5
  let b6 := size_opt % 256
  let c6 := fletcher16 c5 b6
  [b1, b2, b3, b4, b5, b6, c6 % 65536 / 256, c6 % 256]

/-- `ESPSync::TX_NAK` (lines 197-199). -/
def TX_NAK (cmn code : ℕ) : List ℕ :=
  TX_Header cmn NAK ((code <<< 16) ||| 0xA55A)

/-- `ESPSync::TX_ACK` (lines 201-208).  All call sites pass
`timeout ≥ 1`, so the `timeout - 1` matches the C `uint32_t` arithmetic
on every reachable input. -/
def TX_ACK (cmn timeout : ℕ) : List ℕ :=
  let t := if timeout > 65536 then 0xFFFF5A else ((timeout - 1) <<< 8) ||| 0x5A
  TX_Header cmn ACK t

/-- `TX_CSUM32(csum)` (line 170): the four big-endian bytes of a 32-bit
checksum. -/
def TX_CSUM32 (c : ℕ) : List ℕ :=
  [c / 2 ^ 24 % 256, c / 2 ^ 16 % 256, c / 2 ^ 8 % 256, c % 256]

/-- Recursion core of `ESPSync::TX_DataChunk` (lines 210-220): emit
`size` bytes of `buf` starting at index `i`, folding each through the
`uint32_t` adler32 overload.  `junk k` models the indeterminate locals of
the k-th `adler32` call of the enclosing handler invocation; the returned
triple is (emitted bytes, final `*chk`, next junk index). -/
def TX_DataChunkGo (junk : ℕ → ℕ × ℕ) (buf : List ℕ) :
    ℕ → ℕ → ℕ → ℕ → List ℕ × ℕ × ℕ
  | _, k, chk, 0 => ([], chk, k)
  | i, k, chk, size + 1 =>
    let b := buf.getD i 0 % 256
    let chk2 := adler32u32 (junk k).1 (junk k).2 chk b
    let r := TX_DataChunkGo junk buf (i + 1) (k + 1) chk2 size
    (b :: r.1, r.2)

/-- `ESPSync::TX_DataChunk` starting from `_dbuf[0]`. -/
def TX_DataChunk (junk : ℕ → ℕ × ℕ) (buf : List ℕ) (k chk size : ℕ) :
    List ℕ × ℕ × ℕ :=
  TX_DataChunkGo junk buf 0 k chk size

/-- `ESPSync::TX_DataBuf` (lines 222-231): header with size field
`size + 4`, then the `size` buffered bytes, then the four bytes of the
accumulated 32-bit checksum (which, through `adler32u32`, depends only on
the junk locals and the last byte). -/
def TX_DataBuf (junk : ℕ → ℕ × ℕ) (cmn func size : ℕ) (buf : List ℕ) :
    List ℕ :=
  let h := TX_Header cmn func (size + 4)
  let d := TX_DataChunk junk buf 0 0 size
  h ++ d.1 ++ TX_CSUM32 d.2.1

/- ------------------------------------------------------------------ -/
/- Network-byte-order buffer insertion macros (lines 31-35)           -/
/- ------------------------------------------------------------------ -/

def NBO8 (buf : List ℕ) (off v : ℕ) : List ℕ := buf.set off (v % 256)

def NBO32 (buf : List ℕ) (off v : ℕ) : List ℕ :=
  ((((buf.set off (v / 2 ^ 24 % 256)).set (off + 1) (v / 2 ^ 16 % 256)).set
      (off + 2) (v / 2 ^ 8 % 256)).set (off + 3) (v % 256))

/- ------------------------------------------------------------------ -/
/- SPIFFS storage collaborator model                                  -/
/- ------------------------------------------------------------------ -/

/-- `FSInfo` fields the handlers read.  `usedBytes` is derived from the
file list. -/
structure FSInfoT where
  totalBytes : ℕ
  maxPathLength : ℕ
  pageSize : ℕ
deriving DecidableEq

/-- The flat SPIFFS filesystem: `okBegin` models the result of
`SPIFFS.begin()`, `files` the (name bytes, content bytes) entries. -/
structure FileSys where
  okBegin : Bool
  files : List (List ℕ × List ℕ)
  fsinfo : FSInfoT
deriving DecidableEq

def usedBytes (fs : FileSys) : ℕ := (fs.files.map (fun e => e.2.length)).sum

def fsExists (fs : FileSys) (name : List ℕ) : Bool :=
  fs.files.any (fun e => decide (e.1 = name))

/-- Create-or-truncate (`SPIFFS.open(name, "w")` plus the eventual
`close`): set `name`'s content, appending a new entry if absent. -/
def fsSetFile (fs : FileSys) (name content : List ℕ) : FileSys :=
  if fsExists fs name then
    { fs with files := fs.files.map (fun e => if e.1 = name then (name, content) else e) }
  else { fs with files := fs.files ++ [(name, content)] }

/-- `SPIFFS.remove`: true iff the name existed; the entry is dropped. -/
def fsRemove (fs : FileSys) (name : List ℕ) : Bool × FileSys :=
  (fsExists fs name,
   { fs with files := fs.files.filter (fun e => decide (e.1 ≠ name)) })

/-- `SPIFFS.rename old new`: true iff `old` exists; its entry is renamed
in place. -/
def fsRename (fs : FileSys) (old new : List ℕ) : Bool × FileSys :=
  if fsExists fs old then
    (true, { fs with files := fs.files.map (fun e => if e.1 = old then (new, e.2) else e) })
  else (false, fs)

/-- The C string starting at `buf + off`: bytes up to the first 0. -/
def cstr (buf : List ℕ) (off : ℕ) : List ℕ :=
  (buf.drop off).takeWhile (fun b => decide (b ≠ 0))

/-- The byte string of the temporary upload file name `"///TEMP"`. -/
def tempName : List ℕ := [0x2F, 0x2F, 0x2F, 0x54, 0x45, 0x4D, 0x50]

/- ------------------------------------------------------------------ -/
/- Clock collaborator model                                           -/
/- ------------------------------------------------------------------ -/

/-- The `struct tm` fields `PROCESS_SetTime` fills before
`mktime`/`settimeofday`; `ℤ` because `tm` fields are C `int`s and the
code computes `_dbuf[1] - 1` in `int` arithmetic. -/
structure TimeVal where
  mday : ℤ
  mon : ℤ
  year : ℤ
  hour : ℤ
  minute : ℤ
  sec : ℤ
deriving DecidableEq

/- ------------------------------------------------------------------ -/
/- Command handlers (ESPSync.cpp lines 233-425)                       -/
/- ------------------------------------------------------------------ -/

/-- `RANGE_CHK(x, minx, maxx)` (line 28): `((x - minx) <= (maxx - minx))`.
All operands are promoted to `int`, so the subtraction is signed: values
below `minx` give a negative left side that still satisfies the
comparison. -/
def RANGE_CHK (x minx maxx : ℤ) : Bool := decide (x - minx ≤ maxx - minx)

/-- `ESPSync::PROCESS_SetTime` (lines 233-259): validate the six body
bytes with `RANGE_CHK`, on success set the clock from them and emit an
empty `RPL_TIME_SET` header, else emit `NAK(FORMAT)` and leave the clock
alone.  Returns (clock after, emitted bytes). -/
def PROCESS_SetTime (cmn : ℕ) (dbuf : List ℕ) (clock : Option TimeVal) :
    Option TimeVal × List ℕ :=
  if RANGE_CHK (dbuf.getD 0 0) 1 31 && RANGE_CHK (dbuf.getD 1 0) 1 12 &&
     RANGE_CHK (dbuf.getD 3 0) 0 23 && RANGE_CHK (dbuf.getD 4 0) 0 59 &&
     RANGE_CHK (dbuf.getD 5 0) 0 59 then
    (some { mday := (dbuf.getD 0 0 : ℤ), mon := (dbuf.getD 1 0 : ℤ) - 1,
            year := (2019 - 1900) + (dbuf.getD 2 0 : ℤ),
            hour := (dbuf.getD 3 0 : ℤ), minute := (dbuf.getD 4 0 : ℤ),
            sec := (dbuf.getD 5 0 : ℤ) },
     TX_Header cmn RPL_TIME_SET 0)
  else (clock, TX_NAK cmn NAK_FORMAT)

/-- `ESPSync::PROCESS_Format` (lines 261-280): on `SPIFFS.begin()`
success, ACK with the estimated duration, format (drop every file),
then reply `RPL_FORMATED` with total bytes, used bytes and max path
length; else `NAK(FSERR)`.  Returns (fs after, dbuf after, emitted
bytes). -/
def PROCESS_Format (junk : ℕ → ℕ × ℕ) (cmn : ℕ) (dbuf : List ℕ)
    (fs : FileSys) : FileSys × List ℕ × List ℕ :=
  if fs.okBegin then
    let out1 := TX_ACK cmn (30 * 1000)
    let fs2 := { fs with files := [] }
    let d1 := NBO32 dbuf 0 fs2.fsinfo.totalBytes
    let d2 := NBO32 d1 4 (usedBytes fs2)
    let d3 := NBO8 d2 8 fs2.fsinfo.maxPathLength
    (fs2, d3, out1 ++ TX_DataBuf junk cmn RPL_FORMATED 9 d3)
  else (fs, dbuf, TX_NAK cmn NAK_FSERR)

/-- `memset(_dbuf, 0x00, n)` on the buffer model. -/
def memset0 (buf : List ℕ) (n : ℕ) : List ℕ :=
  List.replicate (min n buf.length) 0 ++ buf.drop n

/-- Writing `data` into the buffer starting at `off` (used for
`strcpy` and for `readBytes` into `_dbuf`). -/
def overlay (buf : List ℕ) (off : ℕ) (data : List ℕ) : List ℕ :=
  buf.take off ++ data ++ buf.drop (off + data.length)

/-- The per-file checksum loop of `PROCESS_Listing` (lines 344-348) and
the per-byte fold of `PROCESS_FileRX`: fold the bytes through the broken
`uint32_t` adler32 overload, threading the junk index.  Returns
(final accumulator, next junk index). -/
def adlerFileFold (junk : ℕ → ℕ × ℕ) : List ℕ → ℕ → ℕ → ℕ × ℕ
  | [], k, acc => (acc, k)
  | b :: bs, k, acc =>
    adlerFileFold junk bs (k + 1) (adler32u32 (junk k).1 (junk k).2 acc (b % 256))

/-- An indeterminate `uint32_t` initial value packed from the junk
oracle (for locals the C code reads uninitialized). -/
def junkU32 (junk : ℕ → ℕ × ℕ) (k : ℕ) : ℕ :=
  ((junk k).1 <<< 16) ||| (junk k).2

/-- The per-file body of the `PROCESS_Listing` directory walk (lines
329-353): rebuild `_dbuf` for each file (zeroed name field, `strcpy` of
the name, big-endian size, optional content checksum), then emit it as a
chunk.  Arguments thread (dbuf, junk index, running chunk checksum);
returns (emitted bytes, final dbuf, final checksum, final junk index). -/
def PROCESS_ListingFiles (junk : ℕ → ℕ × ℕ) (maxPath esize options : ℕ) :
    List (List ℕ × List ℕ) → List ℕ → ℕ → ℕ → List ℕ × List ℕ × ℕ × ℕ
  | [], dbuf, k, chk => ([], dbuf, chk, k)
  | f :: rest, dbuf, k, chk =>
    let d1 := memset0 dbuf maxPath
    let d2 := overlay d1 0 (f.1 ++ [0])
    let d3 := NBO32 d2 maxPath f.2.length
    let r0 : List ℕ × ℕ :=
      if options &&& 0x2 ≠ 0 then
        let fc := adlerFileFold junk f.2 (k + 1) (junkU32 junk k)
        (NBO32 d3 (esize - 4) fc.1, fc.2)
      else (d3, k)
    let c := TX_DataChunk junk r0.1 r0.2 chk esize
    let r := PROCESS_ListingFiles junk maxPath esize options rest r0.1 c.2.2 c.2.1
    (c.1 ++ r.1, r.2)

/-- `ESPSync::PROCESS_Listing` (lines 282-355), compiled for ESP8266
(the ESP32 date branch is a preprocessor error, so `options &= 0x2`).
`csum0` models the uninitialized `uint32_t csum` local.  Returns
(fs after, dbuf after, emitted bytes). -/
def PROCESS_Listing (junk : ℕ → ℕ × ℕ) (csum0 : ℕ) (cmn : ℕ)
    (dbuf : List ℕ) (fs : FileSys) : FileSys × List ℕ × List ℕ :=
  if !fs.okBegin then (fs, dbuf, TX_NAK cmn NAK_FSERR)
  else
    let out1 := TX_ACK cmn 1000
    let options := dbuf.getD 0 0 &&& 0x2
    let fcount := fs.files.length
    let esize0 := fs.fsinfo.maxPathLength + 4
    let esize1 := if options &&& 0x1 ≠ 0 then esize0 + 6 else esize0
    let esize := if options &&& 0x2 ≠ 0 then esize1 + 4 else esize1
    let msize := 10 + esize * fcount + 4
    let out2 := TX_Header cmn RPL_LISTING msize
    let d1 := NBO32 dbuf 0 fs.fsinfo.totalBytes
    let d2 := NBO32 d1 4 (fs.fsinfo.totalBytes - usedBytes fs)
    let d3 := NBO8 d2 8 fs.fsinfo.maxPathLength
    let d4 := NBO8 d3 9 options
    let c1 := TX_DataChunk junk d4 0 csum0 10
    let r := PROCESS_ListingFiles junk fs.fsinfo.maxPathLength esize options
      fs.files d4 c1.2.2 c1.2.1
    (fs, r.2.1, out1 ++ out2 ++ c1.1 ++ r.1 ++ TX_CSUM32 r.2.2.1)

/-- `ESPSync::PROCESS_Remove` (lines 357-387): null-terminate the
length-prefixed name, check existence of the string at `_dbuf + 1`, but
call `SPIFFS.remove` on the string at `_dbuf` (the length byte
included).  Returns (fs after, dbuf after, emitted bytes). -/
def PROCESS_Remove (junk : ℕ → ℕ × ℕ) (cmn size : ℕ) (dbuf : List ℕ)
    (fs : FileSys) : FileSys × List ℕ × List ℕ :=
  let nlen := dbuf.getD 0 0
  if !fs.okBegin then (fs, dbuf, TX_NAK cmn NAK_FSERR)
  else
    let d1 := (dbuf.set (nlen + 1) 0).set (size - 2) 0
    if fsExists fs (cstr d1 1) then
      let r := fsRemove fs (cstr d1 0)
      if r.1 then
        let d2 := NBO32 d1 0 r.2.fsinfo.totalBytes
        let d3 := NBO32 d2 4 (r.2.fsinfo.totalBytes - usedBytes r.2)
        (r.2, d3, TX_DataBuf junk cmn RPL_REMOVED 10 d3)
      else (r.2, d1, TX_NAK cmn NAK_FSERR)
    else (fs, d1, TX_NAK cmn NAK_FNOTF)

/-- `ESPSync::PROCESS_Rename` (lines 389-425).  Note the source
null-terminates `_dbuf[nlen + 1]` — the position of the second name's
length byte — and then takes the new name from `_dbuf + nlen + 1`, which
therefore reads as the empty string.  Returns (fs after, dbuf after,
emitted bytes). -/
def PROCESS_Rename (junk : ℕ → ℕ × ℕ) (cmn size : ℕ) (dbuf : List ℕ)
    (fs : FileSys) : FileSys × List ℕ × List ℕ :=
  let nlen := dbuf.getD 0 0
  if !fs.okBegin then (fs, dbuf, TX_NAK cmn NAK_FSERR)
  else
    let d1 := (dbuf.set (nlen + 1) 0).set (size - 2) 0
    if !fsExists fs (cstr d1 1) then (fs, d1, TX_NAK cmn NAK_FNOTF)
    else if fsExists fs (cstr d1 (nlen + 1)) then
      (fs, d1, TX_NAK cmn NAK_FEXISTS)
    else
      let r := fsRename fs (cstr d1 1) (cstr d1 (nlen + 1))
      if r.1 then
        let d2 := NBO32 d1 0 r.2.fsinfo.totalBytes
        let d3 := NBO32 d2 4 (r.2.fsinfo.totalBytes - usedBytes r.2)
        (r.2, d3, TX_DataBuf junk cmn RPL_REMOVED 10 d3)
      else (r.2, d1, TX_NAK cmn NAK_FSERR)

/- ------------------------------------------------------------------ -/
/- File receive (ESPSync.cpp lines 427-594)                           -/
/- ------------------------------------------------------------------ -/

/-- `_streamRef->readBytes(buf, n)` on the transport model: up to `n`
bytes are available immediately, fewer when the stream is exhausted
(which is how a transmitter timeout surfaces). -/
def readBytes (stream : List ℕ) (n : ℕ) : List ℕ × List ℕ :=
  (stream.take n, stream.drop n)

/-- Result of the `PROCESS_FileRX` data-reception loop. -/
structure FileRxLoopOut where
  err : ℕ
  csum : ℕ
  rx_size : ℕ
  content : List ℕ
  stream : List ℕ
  k : ℕ
deriving DecidableEq

/-- The `while ((rx_error == ACK) && (rx_size < _this_size - 4))` loop of
`PROCESS_FileRX` (lines 479-502): read a page-sized chunk, append it to
the temp file, fold each byte through the broken `uint32_t` adler32
overload; a zero-length read is a transmitter timeout. -/
def fileRxLoop (junk : ℕ → ℕ × ℕ) (pageSize this_size : ℕ)
    (stream : List ℕ) (rx_size csum : ℕ) (content : List ℕ) (k : ℕ) :
    FileRxLoopOut :=
  if rx_size < this_size - 4 then
    let rxbufsize :=
      if rx_size + pageSize > this_size then (this_size - rx_size) % 65536
      else pageSize % 65536
    let taken := stream.take rxbufsize
    if h0 : taken.length = 0 then ⟨NAK_TIMEOUT, csum, rx_size, content, stream, k⟩
    else
      let f := adlerFileFold junk taken k csum
      fileRxLoop junk pageSize this_size (stream.drop taken.length)
        (rx_size + taken.length) f.1 (content ++ taken) f.2
  else ⟨ACK, csum, rx_size, content, stream, k⟩
termination_by stream.length
decreasing_by
  unfold_let taken at h0 ⊢
  simp only [List.length_drop, List.length_take] at h0 ⊢
  omega

/-- Result of a whole `PROCESS_FileRX` invocation. -/
structure FileRxOut where
  err : ℕ
  out : List ℕ
  fs : FileSys
  stream : List ℕ
  dbuf : List ℕ
deriving DecidableEq

/-- One of the four trailing-checksum blocks of `PROCESS_FileRX`
(lines 507-539): when no error is pending, read one byte and compare it
with the expected checksum byte.  Returns (error after, stream after). -/
def chkByteStep (stream : List ℕ) (err expect : ℕ) : ℕ × List ℕ :=
  if err = ACK then
    let r := readBytes stream 1
    (if r.1.length ≠ 1 then NAK_TIMEOUT
     else if r.1.getD 0 0 ≠ expect then NAK_CHKSUM else ACK, r.2)
  else (err, stream)

/-- The four trailing-checksum blocks in sequence, most significant byte
first. -/
def fileRxChks (stream : List ℕ) (err csum : ℕ) : ℕ × List ℕ :=
  let s0 := chkByteStep stream err (csum / 2 ^ 24 % 256)
  let s1 := chkByteStep s0.2 s0.1 (csum / 2 ^ 16 % 256)
  let s2 := chkByteStep s1.2 s1.1 (csum / 2 ^ 8 % 256)
  chkByteStep s2.2 s2.1 (csum % 256)

/-- The common tail of `PROCESS_FileRX` on error (lines 586-593):
remove the temporary file if it exists, then send the NAK. -/
def fileRxEpilogue (cmn err : ℕ) (dbuf stream : List ℕ) (fs : FileSys) :
    FileRxOut :=
  let fsE := if fsExists fs tempName then (fsRemove fs tempName).2 else fs
  ⟨err, TX_NAK cmn err, fsE, stream, dbuf⟩

/-- The save steps of `PROCESS_FileRX` (lines 558-571 and 579-584):
remove any pre-existing file of the received name, rename the temp file
onto it, and on full success reply `RPL_RECEIVED` with total and free
bytes. -/
def fileRxMove (junk : ℕ → ℕ × ℕ) (cmn : ℕ) (dbuf2 stream : List ℕ)
    (fs2 : FileSys) : FileRxOut :=
  let rm := if fsExists fs2 (cstr dbuf2 0) then fsRemove fs2 (cstr dbuf2 0)
            else (true, fs2)
  if !rm.1 then fileRxEpilogue cmn NAK_FSERR dbuf2 stream rm.2
  else
    let rn := fsRename rm.2 tempName (cstr dbuf2 0)
    if !rn.1 then fileRxEpilogue cmn NAK_FSERR dbuf2 stream rn.2
    else
      let d2 := NBO32 dbuf2 0 rn.2.fsinfo.totalBytes
      let d3 := NBO32 d2 4 (rn.2.fsinfo.totalBytes - usedBytes rn.2)
      ⟨ACK, TX_DataBuf junk cmn RPL_RECEIVED 8 d3, rn.2, stream, d3⟩

/-- The name-check step of `PROCESS_FileRX` (lines 548-556) followed by
the save steps: terminate the received name at `nsiz` and require it to
compare equal to `"///TEMP"` (the source's inverted `strcmp` test), then
move the file. -/
def fileRxName (junk : ℕ → ℕ × ℕ) (cmn nsiz err : ℕ)
    (dbuf stream : List ℕ) (fs2 : FileSys) : FileRxOut :=
  if err = ACK then
    let dbuf2 := dbuf.set nsiz 0
    if cstr dbuf2 0 ≠ tempName then
      fileRxEpilogue cmn NAK_FNAMERR dbuf2 stream fs2
    else fileRxMove junk cmn dbuf2 stream fs2
  else fileRxEpilogue cmn err dbuf stream fs2

/-- `ESPSync::PROCESS_FileRX` (lines 427-594).  `csum0` models the
uninitialized `uint32_t csum` local; the `fbuffer` page-buffer allocation
is modelled as succeeding.  Note line 465: any nonzero name length byte
(`nsiz > 0`) is rejected with `NAK(FSIZERR)`. -/
def PROCESS_FileRX (junk : ℕ → ℕ × ℕ) (csum0 cmn this_size : ℕ)
    (dbuf stream : List ℕ) (fs : FileSys) : FileRxOut :=
  let fs1 := fsSetFile fs tempName []
  let r1 := readBytes stream 1
  let nsiz := r1.1.getD 0 0
  let e1 := if r1.1.length ≠ 1 ∨ nsiz > 0 then NAK_FSIZERR else ACK
  let r2 := if e1 = ACK then readBytes r1.2 (nsiz + 6) else ([], r1.2)
  let dbuf1 := if e1 = ACK then overlay dbuf 0 r2.1 else dbuf
  let e2 := if e1 = ACK then
      (if r2.1.length ≠ nsiz + 6 then NAK_TIMEOUT else e1)
    else e1
  let lp := if e2 = ACK then
      fileRxLoop junk fs.fsinfo.pageSize this_size r2.2 0 csum0 [] 0
    else ⟨e2, csum0, 0, [], r2.2, 0⟩
  let fs2 := fsSetFile fs1 tempName lp.content
  let c := fileRxChks lp.stream lp.err lp.csum
  fileRxName junk cmn nsiz c.1 dbuf1 c.2 fs2

/- ------------------------------------------------------------------ -/
/- Receive state machine (ESPSync.cpp lines 596-801)                  -/
/- ------------------------------------------------------------------ -/

/-- `CheckMessageSizes` (lines 600-616). -/
def CheckMessageSizes (func size : ℕ) : Bool :=
  if func = CMD_SET_TIME ∧ size = 8 then true
  else if func = CMD_LIST ∧ size = 3 then true
  else if func = CMD_REMOVE ∧ 3 ≤ size ∧ size ≤ TEMP_BUFFER_SIZE then true
  else if func = CMD_RENAME ∧ 6 ≤ size ∧ size ≤ TEMP_BUFFER_SIZE then true
  else false

/-- The `ESPSync` instance fields the receive state machine reads and
writes (`_rxstate`, `_csum_hi`, `_csum_lo`, `_this_cmn`, `_this_fun`,
`_this_size`, `_data_size`, `_chk_mode`, `_dbuf`). -/
structure SyncState where
  rxstate : ℕ
  csum_hi : ℕ
  csum_lo : ℕ
  this_cmn : ℕ
  this_fun : ℕ
  this_size : ℕ
  data_size : ℕ
  chk_mode : ℕ
  dbuf : List ℕ
deriving DecidableEq

/-- The external collaborators a `ProcessByte` call can touch: the
filesystem, the serial stream `PROCESS_FileRX` reads directly, the
device clock, the junk oracle for uninitialized adler32 locals, and the
indeterminate initial value of uninitialized `uint32_t csum` locals. -/
structure Env where
  fs : FileSys
  stream : List ℕ
  clock : Option TimeVal
  junk : ℕ → ℕ × ℕ
  csum0 : ℕ

/-- `reset_rxstate()` (line 166). -/
def resetSt (st : SyncState) : SyncState :=
  { st with rxstate := RXSTATE_WAIT_STX, chk_mode := CSUM_SKIP }

/-- The running-checksum update at the top of the `while` body (lines
629-635): feed the byte to the accumulator selected by `_chk_mode`. -/
def csumStep (st : SyncState) (byte : ℕ) : SyncState :=
  if st.chk_mode ≠ CSUM_SKIP then
    if st.chk_mode = CSUM_FLETCHER16 then
      { st with csum_hi := fletcher16 st.csum_hi byte }
    else
      let s := adler32 st.csum_hi st.csum_lo byte
      { st with csum_hi := s.1, csum_lo := s.2 }
  else st

/-- Body of `ESPSync::ProcessByte` (lines 621-801).  The `while
(process)` loop runs exactly once (nothing ever sets `process` back to
true), so the body is transcribed straight-line: the running-checksum
update at the top, then the `switch` on `_rxstate`.  Returns (state
after, environment after, emitted bytes). -/
def processByteCore (env : Env) (st : SyncState) (b : ℕ) :
    SyncState × Env × List ℕ :=
  let byte := b % 256
  let input := byte
  let st0 := csumStep st byte
  if st0.rxstate = RXSTATE_WAIT_STX then
    -- Only `_rxstate++` is guarded by the sentinel test; the checksum
    -- preload and mode change run unconditionally (missing braces).
    let st1 := if input = STX then { st0 with rxstate := st0.rxstate + 1 } else st0
    ({ st1 with csum_lo := 0x0202, chk_mode := CSUM_FLETCHER16 }, env, [])
  else if st0.rxstate = RXSTATE_WAIT_CMN then
    let i2 := RX_CMN input
    if i2 ≤ CMN_MAX then
      ({ st0 with this_cmn := i2, rxstate := st0.rxstate + 1 }, env, [])
    else (resetSt st0, env, [])
  else if st0.rxstate = RXSTATE_WAIT_FUN then
    if input = ACK ∨ (CMD_SET_TIME ≤ input ∧ input ≤ CMD_FILE) then
      ({ st0 with this_fun := input, rxstate := st0.rxstate + 1 }, env, [])
    else (resetSt st0, env, [])
  else if st0.rxstate = RXSTATE_WAIT_SIZ_HI then
    ({ st0 with this_size := input <<< 16, rxstate := st0.rxstate + 1 }, env, [])
  else if st0.rxstate = RXSTATE_WAIT_SIZ_MD then
    -- `_this_size = input << 8;` — plain assignment, the high byte is
    -- discarded.
    ({ st0 with this_size := input <<< 8, rxstate := st0.rxstate + 1 }, env, [])
  else if st0.rxstate = RXSTATE_WAIT_SIZ_LO then
    ({ st0 with this_size := st0.this_size ||| input,
                rxstate := st0.rxstate + 1, chk_mode := CSUM_SKIP }, env, [])
  else if st0.rxstate = RXSTATE_WAIT_CHK_HI then
    if input = st0.csum_hi % 65536 / 256 then
      ({ st0 with rxstate := st0.rxstate + 1 }, env, [])
    else (resetSt st0, env, [])
  else if st0.rxstate = RXSTATE_WAIT_CHK_LO then
    if input = st0.csum_hi % 256 then
      let st1 : SyncState := { st0 with csum_hi := 0, csum_lo := 0 }
      if st1.this_fun = ACK then
        let out := if st1.this_size % 256 = 0x5A then
            TX_ACK st1.this_cmn (st1.this_size / 256 + 1)
          else []
        (resetSt st1, env, out)
      else if st1.this_fun = CMD_SET_TIME ∨ st1.this_fun = CMD_LIST ∨
              st1.this_fun = CMD_REMOVE ∨ st1.this_fun = CMD_RENAME then
        if CheckMessageSizes st1.this_fun st1.this_size then
          ({ st1 with data_size := 0, rxstate := st1.rxstate + 1 }, env, [])
        else (resetSt st1, env, [])
      else if st1.this_fun = CMD_FORMAT then
        if st1.this_size = 0 then
          let r := PROCESS_Format env.junk st1.this_cmn st1.dbuf env.fs
          (resetSt { st1 with dbuf := r.2.1 }, { env with fs := r.1 }, r.2.2)
        else (resetSt st1, env, [])
      else if st1.this_fun = CMD_FILE then
        if 10 ≤ st1.this_size then
          let r := PROCESS_FileRX env.junk env.csum0 st1.this_cmn
            st1.this_size st1.dbuf env.stream env.fs
          (resetSt { st1 with dbuf := r.dbuf },
           { env with fs := r.fs, stream := r.stream }, r.out)
        else (resetSt st1, env, [])
      else (resetSt st1, env, [])
    else (resetSt st0, env, [])
  else if st0.rxstate = RXSTATE_WAIT_DATA then
    let st1 : SyncState := { st0 with dbuf := st0.dbuf.set st0.data_size input }
    if st1.data_size + 2 = st1.this_size % 256 then
      ({ st1 with rxstate := st1.rxstate + 1, chk_mode := CSUM_SKIP }, env, [])
    else ({ st1 with data_size := (st1.data_size + 1) % 256 }, env, [])
  else if st0.rxstate = RXSTATE_WAIT_CHK2_HI then
    if input = st0.csum_hi / 256 % 256 then
      ({ st0 with rxstate := st0.rxstate + 1 }, env, [])
    else (resetSt st0, env, TX_NAK st0.this_cmn NAK_CHKSUM)
  else if st0.rxstate = RXSTATE_WAIT_CHK2_LO then
    if input = st0.csum_hi % 256 then
      if st0.this_fun = CMD_SET_TIME then
        let r := PROCESS_SetTime st0.this_cmn st0.dbuf env.clock
        (resetSt st0, { env with clock := r.1 }, r.2)
      else if st0.this_fun = CMD_LIST then
        let r := PROCESS_Listing env.junk env.csum0 st0.this_cmn st0.dbuf env.fs
        (resetSt { st0 with dbuf := r.2.1 }, { env with fs := r.1 }, r.2.2)
      else if st0.this_fun = CMD_REMOVE then
        let r := PROCESS_Remove env.junk st0.this_cmn st0.this_size st0.dbuf env.fs
        (resetSt { st0 with dbuf := r.2.1 }, { env with fs := r.1 }, r.2.2)
      else if st0.this_fun = CMD_RENAME then
        let r := PROCESS_Rename env.junk st0.this_cmn st0.this_size st0.dbuf env.fs
        (resetSt { st0 with dbuf := r.2.1 }, { env with fs := r.1 }, r.2.2)
      else (resetSt st0, env, [])
    else (resetSt st0, env, TX_NAK st0.this_cmn NAK_CHKSUM)
  else (resetSt st0, env, [])

/-- Result of `ESPSync::ProcessByte`: state and environment after, the
emitted reply bytes, and the C function's boolean return value. -/
structure StepResult where
  st : SyncState
  env : Env
  out : List ℕ
  ret : Bool

/-- `ESPSync::ProcessByte` (lines 621-801): runs the state machine body
and returns `true` (the single `return true` at line 799). -/
def ProcessByte (env : Env) (st : SyncState) (b : ℕ) : StepResult :=
  let r := processByteCore env st b
  ⟨r.1, r.2.1, r.2.2, true⟩

/-- Feed a byte sequence one byte at a time; returns (environment after,
state after, concatenated emitted bytes). -/
def runBytes (env : Env) (st : SyncState) : List ℕ → Env × SyncState × List ℕ
  | [] => (env, st, [])
  | b :: bs =>
    let r := ProcessByte env st b
    let rest := runBytes r.env r.st bs
    (rest.1, rest.2.1, r.out ++ rest.2.2)

/- ------------------------------------------------------------------ -/
/- Concrete fixtures for evaluation theorems                          -/
/- ------------------------------------------------------------------ -/

/-- A zeroed junk oracle (one definite resolution of the uninitialized
locals). -/
def junk0 : ℕ → ℕ × ℕ := fun _ => (0, 0)

/-- An empty storage backend. -/
def fs0 : FileSys := ⟨true, [], ⟨1000000, 32, 256⟩⟩

/-- A concrete environment: empty storage, empty stream, clock unset. -/
def env0 : Env := ⟨fs0, [], none, junk0, 0⟩

/-- The engine state as the constructor leaves it (uninitialized fields
taken as 0 / zeroed buffer). -/
def st0 : SyncState := ⟨RXSTATE_WAIT_STX, 0, 0, 0, 0, 0, 0, CSUM_SKIP, List.replicate 70 0⟩

/-- A state about to receive the three size bytes of a SET_TIME header
(tag 0 scanned, header checksum span running). -/
def stSize : SyncState :=
  ⟨RXSTATE_WAIT_SIZ_HI, 1, 0x0202, 0, CMD_SET_TIME, 0, 0, CSUM_FLETCHER16, List.replicate 70 0⟩

/-- A state just after a validated SET_TIME header of declared size 8,
about to receive body bytes. -/
def stData : SyncState :=
  ⟨RXSTATE_WAIT_DATA, 0, 0, 0, CMD_SET_TIME, 8, 0, CSUM_SKIP, List.replicate 70 0⟩

/-- A complete SET_TIME message (tag 0, size 8, valid header checksum for
the code's `fletcher16`), body `[1,1,0,0,0,0,0]`, body-checksum bytes
`0x00 0x00`. -/
def msgSetTimeZeroChk : List ℕ :=
  [0x02, 0x20, 0x60, 0x00, 0x00, 0x08, 0x00, 0x01, 1, 1, 0, 0, 0, 0, 0, 0x00, 0x00]

/-- The same message but with body-checksum bytes `0x00 0x01` — the value
`fletcher16` actually accumulates over the seven buffered body bytes from
a fresh accumulator. -/
def msgSetTimeRealChk : List ℕ :=
  [0x02, 0x20, 0x60, 0x00, 0x00, 0x08, 0x00, 0x01, 1, 1, 0, 0, 0, 0, 0, 0x00, 0x01]

/-- Storage holding a single file named `"abcde"`. -/
def fsAB : FileSys :=
  ⟨true, [([97, 98, 99, 100, 101], [1, 2, 3])], ⟨1000, 32, 256⟩⟩

/-- The REMOVE body from the spec's test property: length 5, `"abcde"`,
two zero checksum bytes, rest of the buffer zeroed. -/
def dbufRemove : List ℕ :=
  [5, 97, 98, 99, 100, 101, 0, 0] ++ List.replicate 62 0

/- ------------------------------------------------------------------ -/
/- Claim theorems                                                     -/
/- ------------------------------------------------------------------ -/

/-- C10: `ProcessByte` returns true for every input byte in every
receive state and environment. -/
theorem processByte_always_true (env : Env) (st : SyncState) (b : ℕ) :
    (ProcessByte env st b).ret = true := rfl

/-- C4 counterexample: delivering the non-sentinel byte 0x00 in WaitStart
emits no reply and leaves the receive state in WaitStart, but it is NOT a
no-op on the engine state: the checksum mode flips from Skip to
Fletcher16 and `_csum_lo` is overwritten with 0x0202, because the
preload statements after the sentinel test are outside the `if`'s
(absent) braces. -/
theorem waitStart_noise_changes_chk_mode :
    st0.chk_mode = CSUM_SKIP ∧
    (ProcessByte env0 st0 0).st.chk_mode = CSUM_FLETCHER16 ∧
    (ProcessByte env0 st0 0).st.csum_lo = 0x0202 ∧
    (ProcessByte env0 st0 0).st.rxstate = RXSTATE_WAIT_STX ∧
    (ProcessByte env0 st0 0).out = [] := by
  refine ⟨rfl, rfl, rfl, rfl, rfl⟩

/-- C5: the claim says the three size bytes accumulate to
`(hi << 16) | (mid << 8) | lo`.  Feeding size bytes 0x01 0x02 0x03 from
the size-high state leaves `_this_size = 0x0203` — the mid-byte case
assigns instead of or-ing, so the high byte is discarded — while the
claimed value is 0x010203.  The checksum span does end at the low size
byte (`_chk_mode` drops to Skip). -/
theorem size_high_byte_discarded :
    (runBytes env0 stSize [1, 2, 3]).2.1.this_size = 515 ∧
    (1 <<< 16 ||| 2 <<< 8 ||| 3) = 66051 ∧
    (runBytes env0 stSize [1, 2, 3]).2.1.this_size ≠ (1 <<< 16 ||| 2 <<< 8 ||| 3) ∧
    (runBytes env0 stSize [1, 2, 3]).2.1.chk_mode = CSUM_SKIP ∧
    (runBytes env0 stSize [1, 2, 3]).2.1.rxstate = RXSTATE_WAIT_CHK_HI := by
  refine ⟨rfl, rfl, by decide, rfl, rfl⟩

/-- C7: the claim says the body phase ends after exactly
`declared_size - 2` buffered bytes.  With declared size 8, after six body
bytes the machine is still in the body state; the seventh byte is also
buffered (all seven land in `_dbuf`) before the machine advances to the
body-checksum states — the end test compares the byte INDEX plus 2, so
`size - 1` bytes are buffered. -/
theorem body_phase_buffers_size_minus_one :
    (runBytes env0 stData [9, 9, 9, 9, 9, 9]).2.1.rxstate = RXSTATE_WAIT_DATA ∧
    (runBytes env0 stData [9, 9, 9, 9, 9, 9, 9]).2.1.rxstate = RXSTATE_WAIT_CHK2_HI ∧
    (runBytes env0 stData [9, 9, 9, 9, 9, 9, 9]).2.1.dbuf.take 7 = List.replicate 7 9 ∧
    (runBytes env0 stData [9, 9, 9, 9, 9, 9, 9]).2.2 = [] := by
  refine ⟨rfl, rfl, by decide, rfl⟩

/-- C6: the claim says the trailing body-checksum bytes are compared
against a fresh checksum span covering the buffered body bytes.  The code
never starts that span (`_chk_mode` is still Skip throughout the body),
so the comparison is against the zeroed `_csum_hi`: the message whose
body-checksum bytes are 0x00 0x00 is accepted and dispatched to the
SET_TIME handler (clock set, TIME_SET emitted), while the message
carrying the value `fletcher16` actually accumulates over the body
(0x0001) is rejected with NAK(CHKSUM) and no handler runs. -/
theorem body_checksum_span_never_started :
    (runBytes env0 st0 msgSetTimeZeroChk).2.2 = TX_Header 0 RPL_TIME_SET 0 ∧
    (runBytes env0 st0 msgSetTimeZeroChk).1.clock ≠ none ∧
    (runBytes env0 st0 msgSetTimeZeroChk).2.1.rxstate = RXSTATE_WAIT_STX ∧
    List.foldl fletcher16 0 [1, 1, 0, 0, 0, 0, 0] = 1 ∧
    (runBytes env0 st0 msgSetTimeRealChk).2.2 = TX_NAK 0 NAK_CHKSUM ∧
    (runBytes env0 st0 msgSetTimeRealChk).1.clock = none := by
  refine ⟨by decide, by decide, rfl, rfl, by decide, rfl⟩

/-- C8: the claim says any out-of-range SET_TIME field draws NAK(FORMAT)
with the clock unchanged.  `RANGE_CHK` subtracts in signed `int`
arithmetic, so day 0 (below the claimed range [1,31]) passes
`(0 - 1) <= 30` and the handler sets the clock and replies TIME_SET.
Day 1 (in range) is also accepted, and day 32 (above range) is rejected
— only the lower bounds are broken. -/
theorem setTime_accepts_day_zero :
    (PROCESS_SetTime 0 [0, 1, 0, 0, 0, 0, 0] none).2 = TX_Header 0 RPL_TIME_SET 0 ∧
    (PROCESS_SetTime 0 [0, 1, 0, 0, 0, 0, 0] none).1 ≠ none ∧
    (PROCESS_SetTime 0 [1, 1, 0, 0, 0, 0, 0] none).2 = TX_Header 0 RPL_TIME_SET 0 ∧
    (PROCESS_SetTime 0 [32, 1, 0, 0, 0, 0, 0] none).2 = TX_NAK 0 NAK_FORMAT ∧
    (PROCESS_SetTime 0 [32, 1, 0, 0, 0, 0, 0] none).1 = none := by
  refine ⟨by decide, by decide, by decide, by decide, by decide⟩

/- ------------------------------------------------------------------ -/
/- Helper lemmas for C1 and C4                                        -/
/- ------------------------------------------------------------------ -/

lemma chkByteStep_ack (s : List ℕ) (e x : ℕ)
    (h : (chkByteStep s e x).1 = ACK) : e = ACK := by
  by_cases h1 : e = ACK
  · exact h1
  · unfold chkByteStep at h
    rw [if_neg h1] at h
    exact h

lemma fileRxChks_ack (s : List ℕ) (e c : ℕ)
    (h : (fileRxChks s e c).1 = ACK) : e = ACK := by
  simp only [fileRxChks] at h
  exact chkByteStep_ack _ _ _
    (chkByteStep_ack _ _ _ (chkByteStep_ack _ _ _ (chkByteStep_ack _ _ _ h)))

lemma cstr_set_zero_ne_temp (l : List ℕ) : cstr (l.set 0 0) 0 ≠ tempName := by
  cases l with
  | nil => simp [cstr, tempName]
  | cons a t => simp [cstr, tempName, List.set, List.takeWhile]

lemma filter_ne_of_not_exists (fs : FileSys) (n : List ℕ)
    (h : ¬fsExists fs n = true) :
    fs.files.filter (fun e => decide (e.1 ≠ n)) = fs.files := by
  apply List.filter_eq_self.mpr
  intro e he
  simp only [fsExists, List.any_eq_true, decide_eq_true_eq] at h
  simp only [decide_eq_true_eq]
  exact fun hc => h ⟨e, he, hc⟩

lemma filter_map_overwrite (l : List (List ℕ × List ℕ)) (n v : List ℕ) :
    (l.map (fun e => if e.1 = n then (n, v) else e)).filter
      (fun e => decide (e.1 ≠ n)) =
    l.filter (fun e => decide (e.1 ≠ n)) := by
  induction l with
  | nil => rfl
  | cons a t ih =>
    simp only [List.map_cons, List.filter_cons]
    by_cases h : a.1 = n
    · rw [if_pos h]
      have h1 : decide (((n, v) : List ℕ × List ℕ).1 ≠ n) = false := by simp
      have h2 : decide (a.1 ≠ n) = false := by simp [h]
      rw [h1, h2, ih]
      simp
    · rw [if_neg h]
      have h2 : decide (a.1 ≠ n) = true := by simp [h]
      rw [h2, ih]

lemma fsSetFile_filter (fs : FileSys) (n v : List ℕ) :
    (fsSetFile fs n v).files.filter (fun e => decide (e.1 ≠ n)) =
    fs.files.filter (fun e => decide (e.1 ≠ n)) := by
  unfold fsSetFile
  split_ifs with h
  · exact filter_map_overwrite fs.files n v
  · simp [List.filter_append]

lemma fileRxEpilogue_spec (cmn err : ℕ) (dbuf stream : List ℕ) (fs : FileSys) :
    (fileRxEpilogue cmn err dbuf stream fs).err = err ∧
    (fileRxEpilogue cmn err dbuf stream fs).out = TX_NAK cmn err ∧
    (fileRxEpilogue cmn err dbuf stream fs).fs.files =
      fs.files.filter (fun e => decide (e.1 ≠ tempName)) := by
  unfold fileRxEpilogue
  refine ⟨rfl, rfl, ?_⟩
  split_ifs with h
  · rfl
  · exact (filter_ne_of_not_exists fs tempName h).symm

lemma fileRxName_naks (junk : ℕ → ℕ × ℕ) (cmn nsiz err : ℕ)
    (dbuf stream : List ℕ) (fs2 : FileSys) (h : err ≠ ACK ∨ nsiz = 0) :
    (fileRxName junk cmn nsiz err dbuf stream fs2).err ≠ ACK ∧
    (fileRxName junk cmn nsiz err dbuf stream fs2).out =
      TX_NAK cmn (fileRxName junk cmn nsiz err dbuf stream fs2).err ∧
    (fileRxName junk cmn nsiz err dbuf stream fs2).fs.files =
      fs2.files.filter (fun e => decide (e.1 ≠ tempName)) := by
  by_cases he : err = ACK
  · have hn : nsiz = 0 := by
      rcases h with h | h
      · exact absurd he h
      · exact h
    subst hn
    have hc := cstr_set_zero_ne_temp dbuf
    simp only [fileRxName, if_pos he, if_pos hc]
    obtain ⟨a, b, c⟩ := fileRxEpilogue_spec cmn NAK_FNAMERR (dbuf.set 0 0) stream fs2
    refine ⟨?_, ?_, c⟩
    · rw [a]; decide
    · rw [a, b]
  · simp only [fileRxName, if_neg he]
    obtain ⟨a, b, c⟩ := fileRxEpilogue_spec cmn err dbuf stream fs2
    refine ⟨?_, ?_, c⟩
    · rw [a]; exact he
    · rw [a, b]

lemma csumStep_rxstate (st : SyncState) (byte : ℕ) :
    (csumStep st byte).rxstate = st.rxstate := by
  unfold csumStep
  split_ifs <;> rfl

lemma processByte_waitStart_silent (env : Env) (st : SyncState) (b : ℕ)
    (hst : st.rxstate = RXSTATE_WAIT_STX) (hb : b % 256 ≠ STX) :
    (ProcessByte env st b).out = [] ∧
    (ProcessByte env st b).st.rxstate = RXSTATE_WAIT_STX := by
  have h0 : (csumStep st (b % 256)).rxstate = RXSTATE_WAIT_STX := by
    rw [csumStep_rxstate, hst]
  simp only [ProcessByte, processByteCore]
  rw [if_pos h0, if_neg hb]
  exact ⟨rfl, by simp [csumStep_rxstate, hst]⟩

/-- C1: the claim's failure-path guarantees do hold — on every failing
File-Receive the temporary file is deleted before the NAK goes out and
every other stored file is untouched byte-for-byte — but the claim is
broken in a deeper way: NO invocation can succeed.  Line 465 rejects
every nonzero name length with NAK(FSIZERR), and a zero-length name then
fails the inverted `strcmp("///TEMP", name)` test with NAK(FNAMERR), so
the handler replies with a NAK on every input, never reaches the
remove-then-rename, and never writes any destination name.  For all
inputs: the error is never ACK, the output is exactly the corresponding
NAK frame, and the final filesystem is the initial one minus any
`"///TEMP"` entry. -/
theorem fileRX_always_naks (junk : ℕ → ℕ × ℕ) (csum0 cmn this_size : ℕ)
    (dbuf stream : List ℕ) (fs : FileSys) :
    (PROCESS_FileRX junk csum0 cmn this_size dbuf stream fs).err ≠ ACK ∧
    (PROCESS_FileRX junk csum0 cmn this_size dbuf stream fs).out =
      TX_NAK cmn (PROCESS_FileRX junk csum0 cmn this_size dbuf stream fs).err ∧
    (PROCESS_FileRX junk csum0 cmn this_size dbuf stream fs).fs.files =
      fs.files.filter (fun e => decide (e.1 ≠ tempName)) := by
  simp only [PROCESS_FileRX]
  by_cases h1 : ((readBytes stream 1).1.length ≠ 1 ∨ (readBytes stream 1).1.getD 0 0 > 0)
  · have h2 : NAK_FSIZERR ≠ ACK := by decide
    simp only [if_pos h1, if_neg h2]
    have hkey : (fileRxChks (readBytes stream 1).2 NAK_FSIZERR csum0).1 ≠ ACK :=
      fun hc => absurd (fileRxChks_ack _ _ _ hc) h2
    refine ⟨(fileRxName_naks _ _ _ _ _ _ _ (Or.inl hkey)).1,
      (fileRxName_naks _ _ _ _ _ _ _ (Or.inl hkey)).2.1, ?_⟩
    rw [(fileRxName_naks _ _ _ _ _ _ _ (Or.inl hkey)).2.2,
      fsSetFile_filter, fsSetFile_filter]
  · have hn : (readBytes stream 1).1.getD 0 0 = 0 := by
      push_neg at h1
      omega
    refine ⟨(fileRxName_naks _ _ _ _ _ _ _ (Or.inr hn)).1,
      (fileRxName_naks _ _ _ _ _ _ _ (Or.inr hn)).2.1, ?_⟩
    rw [(fileRxName_naks _ _ _ _ _ _ _ (Or.inr hn)).2.2,
      fsSetFile_filter, fsSetFile_filter]

/-- C4 (amended): a byte that does not match the start sentinel,
delivered in WaitStart, produces no reply and leaves the receive state
in WaitStart — though the checksum mode and accumulators are
unconditionally clobbered (see the counterexample theorem) — and
consequently, for every byte sequence containing no start sentinel, the
engine emits no reply and remains in WaitStart. -/
theorem waitStart_noise_silent (env : Env) (st : SyncState) (bs : List ℕ)
    (hst : st.rxstate = RXSTATE_WAIT_STX)
    (hbs : ∀ b ∈ bs, b % 256 ≠ STX) :
    (runBytes env st bs).2.2 = [] ∧
    (runBytes env st bs).2.1.rxstate = RXSTATE_WAIT_STX := by
  induction bs generalizing env st with
  | nil => exact ⟨rfl, hst⟩
  | cons b t ih =>
    have h1 := processByte_waitStart_silent env st b hst (hbs b (List.mem_cons_self b t))
    have h2 := ih (ProcessByte env st b).env (ProcessByte env st b).st h1.2
      (fun x hx => hbs x (List.mem_cons_of_mem b hx))
    simp only [runBytes]
    exact ⟨by rw [h1.1, h2.1]; rfl, h2.2⟩

/-- C4 witness: the amended theorem applied to the concrete sentinel-free
sequence `[0x00, 0x01, 0x41]` from the freshly constructed engine. -/
theorem waitStart_noise_silent_witness :
    (runBytes env0 st0 [0, 1, 65]).2.2 = [] ∧
    (runBytes env0 st0 [0, 1, 65]).2.1.rxstate = RXSTATE_WAIT_STX :=
  waitStart_noise_silent env0 st0 [0, 1, 65] rfl (by decide)

/-- C9: the claim says a REMOVE whose target exists removes it and
replies REMOVED.  With `"abcde"` present and the spec's own REMOVE body,
the existence check (on the string at `_dbuf + 1`) passes but
`SPIFFS.remove` is called on the string at `_dbuf` — the length-prefixed
`"\x05abcde"` — which does not exist, so the handler replies NAK(FSERR)
and the file is still there.  A nonexistent target does draw NAK(FNOTF)
with storage untouched. -/
theorem remove_uses_wrong_name :
    (PROCESS_Remove junk0 0 8 dbufRemove fsAB).2.2 = TX_NAK 0 NAK_FSERR ∧
    (PROCESS_Remove junk0 0 8 dbufRemove fsAB).1.files = fsAB.files ∧
    fsExists fsAB [97, 98, 99, 100, 101] = true ∧
    (PROCESS_Remove junk0 0 8 dbufRemove fs0).2.2 = TX_NAK 0 NAK_FNOTF ∧
    (PROCESS_Remove junk0 0 8 dbufRemove fs0).1.files = fs0.files := by
  refine ⟨by decide, by decide, by decide, by decide, by decide⟩
